import Mathlib

/-!
Verification of the resilient-fetch subsystem of the Distressed-NYC-Signals
service against its design document.

The definitions below are a shallow embedding of the Python sources:
  - `src/app/scrapers/dob_scraper.py` (class `CircuitBreaker`, class `DOBScraper`)
  - `src/app/browser_manager.py` (class `BrowserManager`, `USER_AGENTS`)

Wall-clock instants (`time.time()` / `datetime.now()`) are modelled as integers.
Python's `if self.last_failure_time:` truthiness test is modelled faithfully:
it fails both for `None` and for the value `0`.
-/

namespace NYCSignals

/-! ### Circuit breaker (dob_scraper.py, class CircuitBreaker) -/

/-- State of the circuit breaker in `dob_scraper.py`.  The Python class keeps
the state as one of the strings "CLOSED", "OPEN", "HALF_OPEN"; we keep the
same representation. -/
structure CircuitBreaker where
  failure_threshold : Nat
  cooldown_seconds : Int
  consecutive_failures : Nat
  last_failure_time : Option Int
  state : String
deriving DecidableEq, Repr

/-- `CircuitBreaker.__init__`: fresh breaker, CLOSED, no failures recorded. -/
def initBreaker (threshold : Nat) (cooldown : Int) : CircuitBreaker :=
  { failure_threshold := threshold
    cooldown_seconds := cooldown
    consecutive_failures := 0
    last_failure_time := none
    state := "CLOSED" }

/-- `CircuitBreaker.record_success`: reset the failure count and close the
breaker.  `last_failure_time` is not touched. -/
def record_success (b : CircuitBreaker) : CircuitBreaker :=
  { b with consecutive_failures := 0, state := "CLOSED" }

/-- `CircuitBreaker.record_failure` at wall-clock instant `now`: bump the
failure count, stamp the failure time, and open the breaker once the count
reaches the threshold. -/
def record_failure (b : CircuitBreaker) (now : Int) : CircuitBreaker :=
  let b := { b with
    consecutive_failures := b.consecutive_failures + 1
    last_failure_time := some now }
  if b.failure_threshold ≤ b.consecutive_failures then { b with state := "OPEN" } else b

/-- `CircuitBreaker.is_available` at wall-clock instant `now`.  Returns the
boolean answer together with the (possibly mutated) breaker: when the breaker
is OPEN and the cooldown has elapsed, the check itself moves the state to
HALF_OPEN.  The Python guard `if self.last_failure_time:` is falsy for `None`
and for the instant `0`. -/
def is_available (b : CircuitBreaker) (now : Int) : Bool × CircuitBreaker :=
  if b.state = "CLOSED" then (true, b)
  else if b.state = "OPEN" then
    match b.last_failure_time with
    | some t =>
      if t ≠ 0 then
        if b.cooldown_seconds ≤ now - t then (true, { b with state := "HALF_OPEN" })
        else (false, b)
      else (false, b)
    | none => (false, b)
  else (true, b)

/-- Fold `record_failure` over a list of failure instants. -/
def recordFailures (b : CircuitBreaker) (ts : List Int) : CircuitBreaker :=
  ts.foldl record_failure b

theorem recordFailures_threshold (b : CircuitBreaker) (ts : List Int) :
    (recordFailures b ts).failure_threshold = b.failure_threshold := by
  induction ts generalizing b with
  | nil => rfl
  | cons t ts ih =>
    rw [recordFailures, List.foldl_cons, ← recordFailures]
    rw [ih]
    simp only [record_failure]
    split <;> rfl

theorem recordFailures_cooldown (b : CircuitBreaker) (ts : List Int) :
    (recordFailures b ts).cooldown_seconds = b.cooldown_seconds := by
  induction ts generalizing b with
  | nil => rfl
  | cons t ts ih =>
    rw [recordFailures, List.foldl_cons, ← recordFailures]
    rw [ih]
    simp only [record_failure]
    split <;> rfl

theorem recordFailures_count (b : CircuitBreaker) (ts : List Int) :
    (recordFailures b ts).consecutive_failures = b.consecutive_failures + ts.length := by
  induction ts generalizing b with
  | nil => rfl
  | cons t ts ih =>
    rw [recordFailures, List.foldl_cons, ← recordFailures]
    rw [ih]
    simp only [record_failure]
    split <;> simp <;> omega

theorem recordFailures_last (b : CircuitBreaker) (ts : List Int) (t : Int)
    (h : ts.getLast? = some t) :
    (recordFailures b ts).last_failure_time = some t := by
  induction ts generalizing b with
  | nil => cases h
  | cons x ts ih =>
    rw [recordFailures, List.foldl_cons, ← recordFailures]
    cases ts with
    | nil =>
      simp only [List.getLast?_singleton, Option.some.injEq] at h
      subst h
      simp only [recordFailures, List.foldl_nil, record_failure]
      split <;> rfl
    | cons y ys =>
      have hgl : (x :: y :: ys).getLast? = (y :: ys).getLast? := by
        simp [List.getLast?_cons_cons]
      rw [hgl] at h
      exact ih _ h

/-- After a final `record_failure` call that brings the count to at least the
threshold, the breaker is OPEN. -/
theorem record_failure_opens (b : CircuitBreaker) (now : Int)
    (h : b.failure_threshold ≤ b.consecutive_failures + 1) :
    (record_failure b now).state = "OPEN" := by
  simp only [record_failure]
  split
  · rfl
  · omega

theorem record_failure_fields (b : CircuitBreaker) (now : Int) :
    (record_failure b now).failure_threshold = b.failure_threshold ∧
    (record_failure b now).cooldown_seconds = b.cooldown_seconds ∧
    (record_failure b now).consecutive_failures = b.consecutive_failures + 1 ∧
    (record_failure b now).last_failure_time = some now := by
  simp only [record_failure]
  split <;> exact ⟨rfl, rfl, rfl, rfl⟩

theorem recordFailures_append (b : CircuitBreaker) (l : List Int) (t : Int) :
    recordFailures b (l ++ [t]) = record_failure (recordFailures b l) t := by
  rw [recordFailures, List.foldl_append, List.foldl_cons, List.foldl_nil]
  rfl

/-- C2: starting from a fresh CLOSED breaker with zero consecutive failures,
any sequence of exactly `failure_threshold` recorded failures (no intervening
success) leaves the breaker OPEN, and any `is_available` check made strictly
less than `cooldown_seconds` after the last recorded failure answers false. -/
theorem breaker_opens_after_threshold_failures
    (threshold : Nat) (cooldown : Int) (ts : List Int) (tlast now : Int)
    (hpos : 0 < threshold) (hlen : ts.length = threshold)
    (hlast : ts.getLast? = some tlast) (hnow : now - tlast < cooldown) :
    (recordFailures (initBreaker threshold cooldown) ts).state = "OPEN" ∧
    (is_available (recordFailures (initBreaker threshold cooldown) ts) now).1 = false := by
  have hne : ts ≠ [] := by
    intro h
    rw [h] at hlen
    simp at hlen
    omega
  obtain ⟨ts', tl, hts⟩ := (ts.eq_nil_or_concat).resolve_left hne
  rw [List.concat_eq_append] at hts
  subst hts
  rw [List.getLast?_concat] at hlast
  injection hlast with hlast'
  subst hlast'
  rw [recordFailures_append]
  have hcnt : (recordFailures (initBreaker threshold cooldown) ts').consecutive_failures
      = ts'.length := by
    simpa [initBreaker] using recordFailures_count (initBreaker threshold cooldown) ts'
  have hth : (recordFailures (initBreaker threshold cooldown) ts').failure_threshold
      = threshold := recordFailures_threshold (initBreaker threshold cooldown) ts'
  have hcd : (recordFailures (initBreaker threshold cooldown) ts').cooldown_seconds
      = cooldown := recordFailures_cooldown (initBreaker threshold cooldown) ts'
  rw [List.length_append, List.length_singleton] at hlen
  have hopen : (record_failure (recordFailures (initBreaker threshold cooldown) ts') tl).state
      = "OPEN" := by
    apply record_failure_opens
    rw [hcnt, hth]
    omega
  refine ⟨hopen, ?_⟩
  have hf := record_failure_fields (recordFailures (initBreaker threshold cooldown) ts') tl
  rcases eq_or_ne tl 0 with h0 | h0
  · subst h0
    simp [is_available, hopen, hf.2.2.2]
  · have hlt : ¬ cooldown ≤ now - tl := by omega
    simp [is_available, hopen, hf.2.2.2, hf.2.1, hcd, h0, hlt]

/-- Witness for `breaker_opens_after_threshold_failures`: threshold 2,
cooldown 10, failures at instants 3 and 5, availability probed at instant 7. -/
theorem breaker_opens_after_threshold_failures_witness :
    (0 < 2 ∧ ([3, 5] : List Int).length = 2 ∧ ([3, 5] : List Int).getLast? = some 5 ∧
      (7 : Int) - 5 < 10) ∧
    ((recordFailures (initBreaker 2 10) [3, 5]).state = "OPEN" ∧
      (is_available (recordFailures (initBreaker 2 10) [3, 5]) 7).1 = false) :=
  ⟨⟨by decide, by decide, by decide, by decide⟩,
    breaker_opens_after_threshold_failures 2 10 [3, 5] 5 7
      (by decide) (by decide) (by decide) (by decide)⟩

/-! ### Reachable breaker states and the HALF_OPEN cycle -/

/-- One externally triggered mutation of the breaker: a recorded success, a
recorded failure at instant `t`, or an availability probe at instant `t`
(whose only side effect is the OPEN to HALF_OPEN move). -/
inductive BreakerOp where
  | success
  | failure (t : Int)
  | avail (t : Int)

/-- Apply one operation to the breaker. -/
def applyOp (b : CircuitBreaker) : BreakerOp → CircuitBreaker
  | .success => record_success b
  | .failure t => record_failure b t
  | .avail t => (is_available b t).2

/-- Apply a sequence of operations. -/
def applyOps (b : CircuitBreaker) (ops : List BreakerOp) : CircuitBreaker :=
  ops.foldl applyOp b

/-- All failure instants in the operation list are positive, which is how the
code runs: `time.time()` returns a positive number of seconds. -/
def opTimesPos (ops : List BreakerOp) : Bool :=
  ops.all fun op =>
    match op with
    | .failure t => decide (0 < t)
    | _ => true

/-- The breaker states reachable from a fresh breaker through the three public
operations, with positive wall-clock failure instants. -/
def ReachableBreaker (threshold : Nat) (cooldown : Int) (b : CircuitBreaker) : Prop :=
  ∃ ops : List BreakerOp, opTimesPos ops = true ∧
    b = applyOps (initBreaker threshold cooldown) ops

/-- Invariant of reachable breakers: whenever the state is OPEN or HALF_OPEN,
the failure count has reached the threshold and the last failure instant is a
recorded positive time. -/
def BreakerInv (b : CircuitBreaker) : Prop :=
  (b.state = "OPEN" ∨ b.state = "HALF_OPEN") →
    b.failure_threshold ≤ b.consecutive_failures ∧
    ∃ t, b.last_failure_time = some t ∧ 0 < t

/-- An availability probe either leaves the breaker untouched or, when the
breaker was OPEN, moves it to HALF_OPEN without touching any other field. -/
theorem is_available_snd (b : CircuitBreaker) (t : Int) :
    (is_available b t).2 = b ∨
      (b.state = "OPEN" ∧ (is_available b t).2 = { b with state := "HALF_OPEN" }) := by
  simp only [is_available]
  split
  · exact Or.inl rfl
  · split
    · rename_i h1 h2
      split
      · rename_i t' heq
        split
        · split
          · exact Or.inr ⟨h2, rfl⟩
          · exact Or.inl rfl
        · exact Or.inl rfl
      · exact Or.inl rfl
    · exact Or.inl rfl

theorem applyOp_cooldown (b : CircuitBreaker) (op : BreakerOp) :
    (applyOp b op).cooldown_seconds = b.cooldown_seconds := by
  cases op with
  | success => rfl
  | failure t => exact (record_failure_fields b t).2.1
  | avail t => rcases is_available_snd b t with h | ⟨_, h⟩ <;> simp [applyOp, h]

theorem applyOps_cooldown (ops : List BreakerOp) (b : CircuitBreaker) :
    (applyOps b ops).cooldown_seconds = b.cooldown_seconds := by
  induction ops generalizing b with
  | nil => rfl
  | cons op ops ih =>
    rw [applyOps, List.foldl_cons, ← applyOps, ih, applyOp_cooldown]

theorem applyOp_inv (b : CircuitBreaker) (op : BreakerOp)
    (hb : BreakerInv b)
    (hop : (match op with | .failure t => decide (0 < t) | _ => true) = true) :
    BreakerInv (applyOp b op) := by
  cases op with
  | success =>
    intro h
    simp only [applyOp, record_success] at h
    rcases h with h | h <;> simp at h
  | failure t =>
    intro h
    simp only [applyOp] at h ⊢
    have hf := record_failure_fields b t
    have hop' : (0 : Int) < t := by simpa using hop
    refine ⟨?_, t, hf.2.2.2, hop'⟩
    rw [hf.1, hf.2.2.1]
    by_cases hc : b.failure_threshold ≤ b.consecutive_failures + 1
    · exact hc
    · have hst : (record_failure b t).state = b.state := by
        simp only [record_failure]
        rw [if_neg (by simpa using hc)]
      rw [hst] at h
      have := hb h
      omega
  | avail t =>
    intro h
    rcases is_available_snd b t with heq | ⟨hopen, heq⟩
    · simp only [applyOp, heq] at h ⊢
      exact hb h
    · simp only [applyOp, heq] at h ⊢
      simpa using hb (Or.inl hopen)

theorem applyOps_inv (ops : List BreakerOp) (b : CircuitBreaker)
    (hb : BreakerInv b) (hops : opTimesPos ops = true) :
    BreakerInv (applyOps b ops) := by
  induction ops generalizing b with
  | nil => exact hb
  | cons op ops ih =>
    rw [opTimesPos, List.all_cons, Bool.and_eq_true] at hops
    rw [applyOps, List.foldl_cons, ← applyOps]
    exact ih _ (applyOp_inv b op hb hops.1) hops.2

theorem reachable_inv (threshold : Nat) (cooldown : Int) (b : CircuitBreaker)
    (hr : ReachableBreaker threshold cooldown b) : BreakerInv b := by
  obtain ⟨ops, hops, rfl⟩ := hr
  apply applyOps_inv ops _ _ hops
  intro h
  rcases h with h | h <;> simp [initBreaker] at h

/-- C3: for a reachable OPEN breaker, the first availability probe at least
`cooldown_seconds` after the last failure answers true and moves the state to
HALF_OPEN; a failure recorded in that HALF_OPEN state re-opens the breaker and
re-stamps `last_failure_time` with the new failure instant, so the cooldown
clock restarts from the new failure. -/
theorem breaker_halfopen_then_reopen
    (threshold : Nat) (cooldown : Int) (b : CircuitBreaker) (t now t2 : Int)
    (hr : ReachableBreaker threshold cooldown b)
    (hs : b.state = "OPEN") (ht : b.last_failure_time = some t)
    (helapsed : cooldown ≤ now - t) :
    (is_available b now).1 = true ∧
    (is_available b now).2.state = "HALF_OPEN" ∧
    (record_failure (is_available b now).2 t2).state = "OPEN" ∧
    (record_failure (is_available b now).2 t2).last_failure_time = some t2 := by
  have hinv := reachable_inv threshold cooldown b hr (Or.inl hs)
  obtain ⟨hcount, t', ht', htpos⟩ := hinv
  rw [ht] at ht'
  obtain rfl : t = t' := by injection ht'
  have hcool : b.cooldown_seconds = cooldown := by
    obtain ⟨ops, _, rfl⟩ := hr
    rw [applyOps_cooldown]
    rfl
  have h0 : t ≠ 0 := by omega
  have havail : is_available b now = (true, { b with state := "HALF_OPEN" }) := by
    simp [is_available, hs, ht, hcool, h0, helapsed]
  rw [havail]
  have hthr : (({ b with state := "HALF_OPEN" } : CircuitBreaker)).failure_threshold
      ≤ (({ b with state := "HALF_OPEN" } : CircuitBreaker)).consecutive_failures + 1 := by
    simpa using Nat.le_succ_of_le hcount
  refine ⟨rfl, rfl, record_failure_opens _ _ hthr, ?_⟩
  exact (record_failure_fields _ _).2.2.2

/-- Witness for `breaker_halfopen_then_reopen`: the breaker reached by a
single failure at instant 5 with threshold 1 and cooldown 10, probed at
instant 15, with the follow-up failure at instant 20. -/
theorem breaker_halfopen_then_reopen_witness :
    (ReachableBreaker 1 10 (recordFailures (initBreaker 1 10) [5]) ∧
      (recordFailures (initBreaker 1 10) [5]).state = "OPEN" ∧
      (recordFailures (initBreaker 1 10) [5]).last_failure_time = some 5 ∧
      (10 : Int) ≤ 15 - 5) ∧
    ((is_available (recordFailures (initBreaker 1 10) [5]) 15).1 = true ∧
      (is_available (recordFailures (initBreaker 1 10) [5]) 15).2.state = "HALF_OPEN" ∧
      (record_failure (is_available (recordFailures (initBreaker 1 10) [5]) 15).2 20).state
        = "OPEN" ∧
      (record_failure (is_available (recordFailures (initBreaker 1 10) [5]) 15).2 20).last_failure_time
        = some 20) :=
  ⟨⟨⟨[BreakerOp.failure 5], by decide, by decide⟩, by decide, by decide, by decide⟩,
    breaker_halfopen_then_reopen 1 10 (recordFailures (initBreaker 1 10) [5]) 5 15 20
      ⟨[BreakerOp.failure 5], by decide, by decide⟩ (by decide) (by decide) (by decide)⟩

/-- C10: a single `record_success` call, from any breaker state whatsoever
(including OPEN during an unexpired cooldown and HALF_OPEN), closes the
breaker and zeroes the failure count while leaving `last_failure_time`
untouched. -/
theorem record_success_closes (b : CircuitBreaker) :
    (record_success b).state = "CLOSED" ∧
    (record_success b).consecutive_failures = 0 ∧
    (record_success b).last_failure_time = b.last_failure_time :=
  ⟨rfl, rfl, rfl⟩

/-! ### String helpers mirroring the Python string methods used by the code -/

/-- The characters removed by Python's `str.strip()`. -/
def pyIsSpace (c : Char) : Bool :=
  c = ' ' || c = '\t' || c = '\n' || c = '\r' || c = '\x0b' || c = '\x0c'

/-- Python `str.strip()`: drop leading and trailing whitespace. -/
def pyStrip (s : String) : String :=
  String.mk (((s.data.dropWhile pyIsSpace).reverse.dropWhile pyIsSpace).reverse)

/-- Python `str.upper()` on the ASCII inputs the scraper handles. -/
def pyUpper (s : String) : String := String.mk (s.data.map Char.toUpper)

/-- Python `str.lower()` on the ASCII inputs the scraper handles. -/
def pyLower (s : String) : String := String.mk (s.data.map Char.toLower)

/-- Python `str.replace(" ", "+")`: every space character becomes a plus;
nothing is collapsed.  A single-character replace is a character map. -/
def replaceSpacePlus (s : String) : String :=
  String.mk (s.data.map fun c => if c = ' ' then '+' else c)

/-- Does the pattern occur at the head of the text? -/
def beginsWith : List Char → List Char → Bool
  | _, [] => true
  | [], _ :: _ => false
  | c :: cs, d :: ds => c == d && beginsWith cs ds

/-- Does the pattern occur anywhere in the text (Python's `in` on strings)? -/
def hasSub : List Char → List Char → Bool
  | [], pat => pat.isEmpty
  | c :: cs, pat => beginsWith (c :: cs) pat || hasSub cs pat

/-- Python `pat in s` for strings. -/
def strContainsSub (s pat : String) : Bool := hasSub s.data pat.data

theorem hasSub_append_right (a b pat : List Char) (h : hasSub b pat = true) :
    hasSub (a ++ b) pat = true := by
  induction a with
  | nil => simpa using h
  | cons x xs ih => simp [hasSub, ih]

theorem strContainsSub_append_right (a b pat : String) (h : strContainsSub b pat = true) :
    strContainsSub (a ++ b) pat = true := by
  rw [strContainsSub] at h ⊢
  rw [String.data_append]
  exact hasSub_append_right _ _ _ h

/-! ### DOB BIS search URL (dob_scraper.py, DOBScraper._build_search_url) -/

/-- The `Borough` enum from `models.py`, as consumed by the scraper. -/
inductive Borough where
  | manhattan
  | bronx
  | brooklyn
  | queens
  | statenIsland
deriving DecidableEq, Repr

/-- `DOBScraper._get_borough_code`: DOB BIS numeric borough codes. -/
def get_borough_code : Borough → String
  | .manhattan => "1"
  | .bronx => "2"
  | .brooklyn => "3"
  | .queens => "4"
  | .statenIsland => "5"

/-- `DOBScraper._build_search_url`: clean the inputs (strip and upper-case)
and interpolate them into the property-profile servlet URL, with spaces in
the street turned into plus signs. -/
def build_search_url (base_url house_number street : String) (borough : Borough) : String :=
  base_url ++
    ("/PropertyProfileOverviewServlet?" ++
      ("boro=" ++ get_borough_code borough ++ "&" ++
        ("houseno=" ++ pyUpper (pyStrip house_number) ++ "&" ++
          ("street=" ++ replaceSpacePlus (pyUpper (pyStrip street))))))

/-- Split a character list into maximal whitespace-free words. -/
def splitWords : List Char → List Char → List (List Char)
  | [], acc => if acc.isEmpty then [] else [acc.reverse]
  | c :: cs, acc =>
    if pyIsSpace c then
      if acc.isEmpty then splitWords cs [] else acc.reverse :: splitWords cs []
    else splitWords cs (c :: acc)

/-- Join words with single plus signs between them. -/
def joinPlus : List (List Char) → List Char
  | [] => []
  | [w] => w
  | w :: ws => w ++ '+' :: joinPlus ws

/-- The street query component as the design document words it: trimmed,
upper-cased, with internal whitespace collapsed and replaced with `+`.  This
definition follows the spec's words, for comparison against the code's
`replaceSpacePlus (pyUpper (pyStrip street))`. -/
def specCollapsedStreet (street : String) : String :=
  String.mk (joinPlus (splitWords (pyUpper (pyStrip street)).data []))

/-- C8 (amended): `_build_search_url` is a pure function of its inputs with
the interpolated shape below; the house number and street are stripped and
upper-cased, and every single space character of the street is replaced with
a `+` (runs of internal whitespace are not collapsed).  For every base URL,
the scenario address house number "123", street "Main Street", Manhattan
(borough code 1) yields a URL containing
`boro=1&houseno=123&street=MAIN+STREET`, even when the inputs carry leading
or trailing whitespace and lower-case letters. -/
theorem build_search_url_spec (base_url house_number street : String) (borough : Borough) :
    (build_search_url base_url house_number street borough =
      base_url ++
        ("/PropertyProfileOverviewServlet?" ++
          ("boro=" ++ get_borough_code borough ++ "&" ++
            ("houseno=" ++ pyUpper (pyStrip house_number) ++ "&" ++
              ("street=" ++ replaceSpacePlus (pyUpper (pyStrip street))))))) ∧
    strContainsSub (build_search_url base_url "123" "Main Street" Borough.manhattan)
      "boro=1&houseno=123&street=MAIN+STREET" = true ∧
    strContainsSub (build_search_url base_url "  123  " "  main Street " Borough.manhattan)
      "boro=1&houseno=123&street=MAIN+STREET" = true := by
  refine ⟨rfl, ?_, ?_⟩
  · rw [build_search_url]
    exact strContainsSub_append_right _ _ _ (by decide)
  · rw [build_search_url]
    exact strContainsSub_append_right _ _ _ (by decide)

/-! ### Extraction from the property-profile markup
(dob_scraper.py, DOBScraper._extract_data_from_page) -/

/-- The `DOBStatus` model from `models.py`, with the wall-clock timestamp as
an integer.  Defaults as in the pydantic model: zero violations, no orders,
no BIN, no error. -/
structure DOBStatus where
  open_violations : Nat := 0
  stop_work_order : Bool := false
  vacate_order : Bool := false
  bin_number : Option String := none
  scraped_at : Int := 0
  error : Option String := none
deriving DecidableEq, Repr

/-- `DOBStatus()` as constructed at the top of `_extract_data_from_page`:
all defaults, with `scraped_at` stamped by the pydantic default factory at
construction time. -/
def dobInit (now : Int) : DOBStatus := { scraped_at := now }

/-- Python `int(...)` on the digit string captured by a `\d+` regex group. -/
def pyIntDigits (s : String) : Nat :=
  s.data.foldl (fun n c => n * 10 + (c.toNat - 48)) 0

/-- Outcome of probing the markup for one stop-work/vacate keyword pattern:
whether the bare keyword matches, whether the proximity pattern
`keyword ... (active|yes|in effect)` matches, and whether the keyword occurs
inside a `<td>` cell. -/
structure PatternProbe where
  keyword : Bool
  proximity : Bool
  tdcell : Bool
deriving DecidableEq, Repr

/-- The pattern loop of `_extract_data_from_page`: walk the patterns in
order; when the bare keyword matches, set the flag and stop as soon as the
proximity match or the table-cell match succeeds, otherwise keep scanning. -/
def applyProbes : List PatternProbe → Bool
  | [] => false
  | p :: rest =>
    if p.keyword then
      if p.proximity then true
      else if p.tdcell then true
      else applyProbes rest
    else applyProbes rest

/-- Outcomes of the individual regex and BeautifulSoup queries that
`_extract_data_from_page` runs against the raw markup.  The regex and HTML
engines themselves are outside the embedding; each query's result on the
given markup is an input here: the captured BIN digits, the captured
violations count digits, the row count of each table matching "violation",
the probes for the stop-work-order and vacate-order patterns, and the texts
of the three active-order indicator nodes. -/
structure ExtractOracle where
  bin_match : Option String
  violations_match : Option String
  violation_table_rows : List Nat
  swo_probes : List PatternProbe
  vacate_probes : List PatternProbe
  indicators : List (Option String)

/-- Step 1 of the `try` block: `BIN#? :? (\d{7})` — store the captured BIN. -/
def binStep (o : ExtractOracle) (st : DOBStatus) : DOBStatus :=
  match o.bin_match with
  | some g => { st with bin_number := some g }
  | none => st

/-- Step 2: `(open|active) violations? [:=]? (\d+)` — store the count. -/
def violationsStep (o : ExtractOracle) (st : DOBStatus) : DOBStatus :=
  match o.violations_match with
  | some g => { st with open_violations := pyIntDigits g }
  | none => st

/-- Step 3: when the count regex did not match and violation tables exist,
set the count to each table's row count minus the header row in turn (the
loop overwrites, so the last table wins; `max 0 (len - 1)` is truncated
subtraction). -/
def tablesStep (o : ExtractOracle) (st : DOBStatus) : DOBStatus :=
  if o.violations_match.isNone && !o.violation_table_rows.isEmpty then
    o.violation_table_rows.foldl (fun st rows => { st with open_violations := rows - 1 }) st
  else st

/-- Step 4: the stop-work-order pattern loop. -/
def swoStep (o : ExtractOracle) (st : DOBStatus) : DOBStatus :=
  if applyProbes o.swo_probes then { st with stop_work_order := true } else st

/-- Step 5: the vacate-order pattern loop. -/
def vacateStep (o : ExtractOracle) (st : DOBStatus) : DOBStatus :=
  if applyProbes o.vacate_probes then { st with vacate_order := true } else st

/-- Body of the indicator loop: lower-case the node text, set the
stop-work-order flag when it mentions "stop" or "swo", and the vacate flag
when it mentions "vacate". -/
def indicatorUpdate (st : DOBStatus) (ind : Option String) : DOBStatus :=
  match ind with
  | none => st
  | some s =>
    let text := pyLower s
    let st1 :=
      if hasSub text.data "stop".data || hasSub text.data "swo".data then
        { st with stop_work_order := true }
      else st
    if hasSub text.data "vacate".data then { st1 with vacate_order := true } else st1

/-- Step 6: the active-order indicator loop over the three soup lookups. -/
def indicatorsStep (o : ExtractOracle) (st : DOBStatus) : DOBStatus :=
  o.indicators.foldl indicatorUpdate st

/-- Step 7: `status.scraped_at = datetime.now(timezone.utc)`. -/
def timestampStep (now : Int) (st : DOBStatus) : DOBStatus :=
  { st with scraped_at := now }

/-- The statements of the `try` block of `_extract_data_from_page`, in
program order. -/
def extractStepsList (o : ExtractOracle) (now : Int) : List (DOBStatus → DOBStatus) :=
  [binStep o, violationsStep o, tablesStep o, swoStep o, vacateStep o, indicatorsStep o,
    timestampStep now]

/-- Run a list of mutation steps left to right. -/
def runSteps (fs : List (DOBStatus → DOBStatus)) (st : DOBStatus) : DOBStatus :=
  fs.foldl (fun st f => f st) st

/-- `DOBScraper._extract_data_from_page`.  The whole extraction runs inside
`try: ... except Exception as e: status.error = "Parse error: ..."`, so the
function returns a `DOBStatus` on every path.  `fault = some (k, msg)`
models a Python exception with text `msg` raised inside the `try` block
after the first `k` statements have completed: the handler stamps `error`
and the partially filled status object is returned.  `fault = none` is the
exception-free run. -/
def extract_data_from_page (o : ExtractOracle) (now : Int)
    (fault : Option (Nat × String)) : DOBStatus :=
  match fault with
  | none => runSteps (extractStepsList o now) (dobInit now)
  | some (k, msg) =>
    let st := runSteps ((extractStepsList o now).take k) (dobInit now)
    { st with error := some ("Parse error: " ++ msg) }

theorem binStep_preserve (o : ExtractOracle) (st : DOBStatus) :
    (binStep o st).open_violations = st.open_violations ∧
    (binStep o st).stop_work_order = st.stop_work_order ∧
    (binStep o st).vacate_order = st.vacate_order ∧
    (binStep o st).scraped_at = st.scraped_at ∧
    (binStep o st).error = st.error := by
  rcases h : o.bin_match with _ | g <;> simp [binStep, h]

theorem violationsStep_preserve (o : ExtractOracle) (st : DOBStatus) :
    (violationsStep o st).bin_number = st.bin_number ∧
    (violationsStep o st).stop_work_order = st.stop_work_order ∧
    (violationsStep o st).vacate_order = st.vacate_order ∧
    (violationsStep o st).scraped_at = st.scraped_at ∧
    (violationsStep o st).error = st.error := by
  rcases h : o.violations_match with _ | g <;> simp [violationsStep, h]

theorem tablesFold_preserve (l : List Nat) (st : DOBStatus) :
    ((l.foldl (fun st rows => { st with open_violations := rows - 1 }) st).bin_number
      = st.bin_number) ∧
    ((l.foldl (fun st rows => { st with open_violations := rows - 1 }) st).stop_work_order
      = st.stop_work_order) ∧
    ((l.foldl (fun st rows => { st with open_violations := rows - 1 }) st).vacate_order
      = st.vacate_order) ∧
    ((l.foldl (fun st rows => { st with open_violations := rows - 1 }) st).scraped_at
      = st.scraped_at) ∧
    ((l.foldl (fun st rows => { st with open_violations := rows - 1 }) st).error
      = st.error) := by
  induction l generalizing st with
  | nil => simp
  | cons r l ih => simpa using ih { st with open_violations := r - 1 }

theorem tablesStep_preserve (o : ExtractOracle) (st : DOBStatus) :
    (tablesStep o st).bin_number = st.bin_number ∧
    (tablesStep o st).stop_work_order = st.stop_work_order ∧
    (tablesStep o st).vacate_order = st.vacate_order ∧
    (tablesStep o st).scraped_at = st.scraped_at ∧
    (tablesStep o st).error = st.error := by
  rw [tablesStep]
  split
  · exact tablesFold_preserve _ _
  · exact ⟨rfl, rfl, rfl, rfl, rfl⟩

theorem swoStep_preserve (o : ExtractOracle) (st : DOBStatus) :
    (swoStep o st).bin_number = st.bin_number ∧
    (swoStep o st).open_violations = st.open_violations ∧
    (swoStep o st).vacate_order = st.vacate_order ∧
    (swoStep o st).scraped_at = st.scraped_at ∧
    (swoStep o st).error = st.error := by
  rw [swoStep]
  split <;> simp

theorem vacateStep_preserve (o : ExtractOracle) (st : DOBStatus) :
    (vacateStep o st).bin_number = st.bin_number ∧
    (vacateStep o st).open_violations = st.open_violations ∧
    (vacateStep o st).stop_work_order = st.stop_work_order ∧
    (vacateStep o st).scraped_at = st.scraped_at ∧
    (vacateStep o st).error = st.error := by
  rw [vacateStep]
  split <;> simp

theorem indicatorUpdate_preserve (st : DOBStatus) (ind : Option String) :
    (indicatorUpdate st ind).bin_number = st.bin_number ∧
    (indicatorUpdate st ind).open_violations = st.open_violations ∧
    (indicatorUpdate st ind).scraped_at = st.scraped_at ∧
    (indicatorUpdate st ind).error = st.error := by
  rcases ind with _ | s
  · exact ⟨rfl, rfl, rfl, rfl⟩
  · simp only [indicatorUpdate]
    split <;> split <;> simp

theorem indicatorsStep_preserve (o : ExtractOracle) (st : DOBStatus) :
    (indicatorsStep o st).bin_number = st.bin_number ∧
    (indicatorsStep o st).open_violations = st.open_violations ∧
    (indicatorsStep o st).scraped_at = st.scraped_at ∧
    (indicatorsStep o st).error = st.error := by
  rw [indicatorsStep]
  generalize o.indicators = l
  induction l generalizing st with
  | nil => simp
  | cons a l ih =>
    rw [List.foldl_cons]
    have h1 := indicatorUpdate_preserve st a
    have h2 := ih (indicatorUpdate st a)
    exact ⟨h2.1.trans h1.1, h2.2.1.trans h1.2.1, h2.2.2.1.trans h1.2.2.1,
      h2.2.2.2.trans h1.2.2.2⟩

theorem timestampStep_preserve (now : Int) (st : DOBStatus) :
    (timestampStep now st).bin_number = st.bin_number ∧
    (timestampStep now st).open_violations = st.open_violations ∧
    (timestampStep now st).stop_work_order = st.stop_work_order ∧
    (timestampStep now st).vacate_order = st.vacate_order ∧
    (timestampStep now st).error = st.error ∧
    (timestampStep now st).scraped_at = now :=
  ⟨rfl, rfl, rfl, rfl, rfl, rfl⟩

/-- C5: `_extract_data_from_page` returns a `DOBStatus` on every path (the
model is a total function), with `error = None` on the exception-free run;
when an internal failure with text `msg` occurs after `k` completed
extraction statements, the result carries the parse-failure description
`"Parse error: " ++ msg` and, for every field already resolved by those `k`
statements, the very value the fault-free extraction computes. -/
theorem extract_data_total_and_fault_fields (o : ExtractOracle) (now : Int) (k : Nat) (msg : String) :
    (extract_data_from_page o now none).error = none ∧
    (extract_data_from_page o now (some (k, msg))).error
      = some ("Parse error: " ++ msg) ∧
    (extract_data_from_page o now (some (k, msg))).scraped_at = now ∧
    (1 ≤ k → (extract_data_from_page o now (some (k, msg))).bin_number
      = (extract_data_from_page o now none).bin_number) ∧
    (3 ≤ k → (extract_data_from_page o now (some (k, msg))).open_violations
      = (extract_data_from_page o now none).open_violations) ∧
    (6 ≤ k → (extract_data_from_page o now (some (k, msg))).stop_work_order
      = (extract_data_from_page o now none).stop_work_order ∧
      (extract_data_from_page o now (some (k, msg))).vacate_order
      = (extract_data_from_page o now none).vacate_order) := by
  have htake : ∀ m : Nat, 7 ≤ m → (extractStepsList o now).take m = extractStepsList o now := by
    intro m hm
    apply List.take_of_length_le
    simpa [extractStepsList] using hm
  rcases k with _ | _ | _ | _ | _ | _ | _ | k <;>
    simp [extract_data_from_page, extractStepsList, runSteps, dobInit, htake,
      binStep_preserve, violationsStep_preserve, tablesStep_preserve, swoStep_preserve,
      vacateStep_preserve, indicatorsStep_preserve, timestampStep_preserve]

/-- A sample oracle for the witness: a BIN match, a violations-count match,
one violation table of three rows, one stop-work-order probe with a
proximity hit, no vacate probes, one indicator node. -/
def sampleOracle : ExtractOracle :=
  { bin_match := some "1234567"
    violations_match := some "4"
    violation_table_rows := [3]
    swo_probes := [{ keyword := true, proximity := true, tdcell := false }]
    vacate_probes := []
    indicators := [some "Stop Work Order Active"] }

/-- Witness for `extract_data_total_and_fault_fields` at `sampleOracle`,
instant 5, fault after 6 completed statements with message "boom". -/
theorem extract_data_total_and_fault_fields_witness :
    (extract_data_from_page sampleOracle 5 none).error = none ∧
    (extract_data_from_page sampleOracle 5 (some (6, "boom"))).error
      = some "Parse error: boom" ∧
    (extract_data_from_page sampleOracle 5 (some (6, "boom"))).bin_number
      = (extract_data_from_page sampleOracle 5 none).bin_number ∧
    (extract_data_from_page sampleOracle 5 (some (6, "boom"))).open_violations
      = (extract_data_from_page sampleOracle 5 none).open_violations ∧
    (extract_data_from_page sampleOracle 5 (some (6, "boom"))).stop_work_order
      = (extract_data_from_page sampleOracle 5 none).stop_work_order :=
  ⟨(extract_data_total_and_fault_fields sampleOracle 5 6 "boom").1,
    (extract_data_total_and_fault_fields sampleOracle 5 6 "boom").2.1,
    (extract_data_total_and_fault_fields sampleOracle 5 6 "boom").2.2.2.1 (by decide),
    (extract_data_total_and_fault_fields sampleOracle 5 6 "boom").2.2.2.2.1 (by decide),
    ((extract_data_total_and_fault_fields sampleOracle 5 6 "boom").2.2.2.2.2 (by decide)).1⟩

/-! ### The retry loop (dob_scraper.py, DOBScraper.get_dob_status) -/

/-- The user-agent pool `USER_AGENTS` from `browser_manager.py`. -/
def USER_AGENTS : List String :=
  [ "Mozilla/5.0 (Windows NT 10.0; Win64; x64) AppleWebKit/537.36 (KHTML, like Gecko) Chrome/120.0.0.0 Safari/537.36",
    "Mozilla/5.0 (Macintosh; Intel Mac OS X 10_15_7) AppleWebKit/537.36 (KHTML, like Gecko) Chrome/120.0.0.0 Safari/537.36",
    "Mozilla/5.0 (Windows NT 10.0; Win64; x64; rv:121.0) Gecko/20100101 Firefox/121.0",
    "Mozilla/5.0 (Macintosh; Intel Mac OS X 10_15_7) AppleWebKit/605.1.15 (KHTML, like Gecko) Version/17.2 Safari/605.1.15",
    "Mozilla/5.0 (X11; Linux x86_64) AppleWebKit/537.36 (KHTML, like Gecko) Chrome/120.0.0.0 Safari/537.36" ]

/-- What one navigation attempt does, as observed by the retry loop: the
navigation raises a Playwright timeout, some other exception is raised
(HTTP status of 400 or more, transport failure, session setup failure), or
the page content is retrieved. -/
inductive AttemptOutcome where
  | timeout (msg : String)
  | failure (msg : String)
  | content (html : String)

/-- The environment of one `get_dob_status` run: the outcome of each
navigation attempt, the random index drawn by `random.choice` on each
attempt, and the wall clock. -/
structure ScrapeEnv where
  attempts : Nat → AttemptOutcome
  picks : Nat → Nat
  time : Int

/-- The mutable state threaded through the retry loop: the circuit breaker,
the `used_agents` set, `last_error`, plus instrumentation recording which
agents were chosen in order and how many times the breaker was notified. -/
structure LoopState where
  breaker : CircuitBreaker
  used_agents : List String
  last_error : Option String
  agent_trace : List String
  failures_recorded : Nat
  successes_recorded : Nat
deriving DecidableEq, Repr

/-- `random.choice` over a non-empty list, driven by the drawn index `k`. -/
def randomChoice (l : List String) (k : Nat) : String := l.getD (k % l.length) ""

/-- Python `set.add` on a set modelled as a duplicate-free list. -/
def setAdd (l : List String) (a : String) : List String :=
  if a ∈ l then l else l ++ [a]

/-- `available_agents = [ua for ua in USER_AGENTS if ua not in used_agents]`,
falling back to the whole pool when that list is empty. -/
def availableAgents (used : List String) : List String :=
  let avail := USER_AGENTS.filter fun ua => !used.contains ua
  if avail.isEmpty then USER_AGENTS else avail

/-- The user agent chosen for an attempt, given the used set and the drawn
random index. -/
def chosenAgent (used : List String) (k : Nat) : String :=
  randomChoice (availableAgents used) k

/-- Python f-string rendering of an `Optional[str]`. -/
def pyOptStr : Option String → String
  | none => "None"
  | some s => s

/-- The early result for markup that says no records were found. -/
def noRecordsStatus (now : Int) : DOBStatus :=
  { error := some "No property records found", scraped_at := now }

/-- The fast-fail result when the circuit breaker rejects the request. -/
def circuitOpenStatus (now : Int) : DOBStatus :=
  { error := some "DOB temporarily unavailable (circuit breaker open)", scraped_at := now }

/-- The result after all attempts failed. -/
def scrapeFailedStatus (now : Int) (lastError : Option String) : DOBStatus :=
  { error := some ("Scrape failed: " ++ pyOptStr lastError), scraped_at := now }

/-- One iteration of the retry loop of `get_dob_status` (attempt index `i`):
choose a fresh user agent, run the attempt, and either return a status
(`some`) or fall through to the next attempt (`none`).  `extractFn` stands
for `_extract_data_from_page` on the retrieved markup. -/
def scrapeStep (extractFn : String → DOBStatus) (env : ScrapeEnv) (i : Nat)
    (s : LoopState) : Option DOBStatus × LoopState :=
  let ua := chosenAgent s.used_agents (env.picks i)
  let s := { s with used_agents := setAdd s.used_agents ua
                    agent_trace := s.agent_trace ++ [ua] }
  match env.attempts i with
  | .timeout _ =>
    (none, { s with last_error := some ("Timeout on attempt " ++ toString (i + 1)) })
  | .failure m => (none, { s with last_error := some m })
  | .content html =>
    if strContainsSub (pyLower html) "no records found" then
      (some (noRecordsStatus env.time), s)
    else
      let st := extractFn html
      if st.error = none then
        (some st, { s with breaker := record_success s.breaker
                           successes_recorded := s.successes_recorded + 1 })
      else (none, s)

/-- The retry loop `for attempt in range(retry_count + 1)` with `r` attempts
remaining and `i` attempts already made; after the last attempt the failure
is reported to the breaker once and the last-seen error is returned. -/
def scrapeLoop (extractFn : String → DOBStatus) (env : ScrapeEnv) :
    Nat → Nat → LoopState → DOBStatus × LoopState
  | 0, _, s =>
    (scrapeFailedStatus env.time s.last_error,
      { s with breaker := record_failure s.breaker env.time
               failures_recorded := s.failures_recorded + 1 })
  | r + 1, i, s =>
    match scrapeStep extractFn env i s with
    | (some st, s2) => (st, s2)
    | (none, s2) => scrapeLoop extractFn env r (i + 1) s2

/-- The loop state at the top of `get_dob_status`: given breaker, empty used
set, no error seen, nothing recorded yet. -/
def initLoopState (b : CircuitBreaker) : LoopState :=
  { breaker := b
    used_agents := []
    last_error := none
    agent_trace := []
    failures_recorded := 0
    successes_recorded := 0 }

/-- `DOBScraper.get_dob_status`.  The breaker is consulted first (the check
itself may move OPEN to HALF_OPEN); on rejection the circuit-open status is
returned.  The browser manager is then awaited outside the retry loop's
`try` blocks — `browserInit` is the outcome of that await, and its failure
(`BrowserManager.initialize` re-raises launch errors) escapes as an
exception, modelled by `Except.error`.  Otherwise the retry loop runs
`retry_count + 1` attempts. -/
def get_dob_status (extractFn : String → DOBStatus) (env : ScrapeEnv)
    (browserInit : Except String Unit) (b : CircuitBreaker) (retry_count : Nat) :
    Except String (DOBStatus × LoopState) :=
  match is_available b env.time with
  | (false, b1) => .ok (circuitOpenStatus env.time, initLoopState b1)
  | (true, b1) =>
    match browserInit with
    | .error e => .error e
    | .ok _ => .ok (scrapeLoop extractFn env (retry_count + 1) 0 (initLoopState b1))

/-- The value a non-raising run hands to the caller, `none` when the run
raised. -/
def okResult : Except String (DOBStatus × LoopState) → Option (DOBStatus × LoopState)
  | .ok p => some p
  | .error _ => none

/-- The `DOBStatus` handed to the caller, when the run did not raise. -/
def resultStatus (r : Except String (DOBStatus × LoopState)) : Option DOBStatus :=
  (okResult r).map Prod.fst

/-- An environment whose every attempt times out. -/
def envTimeouts : ScrapeEnv :=
  { attempts := fun _ => .timeout "t", picks := fun _ => 0, time := 1000 }

/-- An environment whose every attempt retrieves a no-records page. -/
def envNoRecords : ScrapeEnv :=
  { attempts := fun _ => .content "<html>No records found</html>"
    picks := fun _ => 0
    time := 1000 }

/-- An extraction function standing in for `_extract_data_from_page` in runs
that never reach extraction. -/
def extractNone : String → DOBStatus := fun _ => {}

/-- C1 (amended): once the browser manager has been obtained, `get_dob_status`
returns a `DOBStatus` value — it never raises — for every breaker state,
every attempt outcome and every extraction result. -/
theorem get_dob_status_total_after_browser (extractFn : String → DOBStatus)
    (env : ScrapeEnv) (b : CircuitBreaker) (retry_count : Nat) :
    (okResult (get_dob_status extractFn env (Except.ok ()) b retry_count)).isSome = true := by
  rcases h : is_available b env.time with ⟨avail, b1⟩
  cases avail <;> simp [get_dob_status, h, okResult]

/-- C1 counterexample: with the breaker CLOSED, a browser-initialization
failure — `BrowserManager.initialize` re-raises, and `get_dob_status`
obtains the browser manager outside its `try` blocks — escapes
`get_dob_status` as an exception instead of being returned as a `DOBStatus`
with an error field. -/
theorem get_dob_status_raises_on_browser_failure :
    get_dob_status extractNone envTimeouts (Except.error "InitializationError")
      (initBreaker 5 300) 2 = Except.error "InitializationError" := rfl

/-- C4 (amended): when the breaker admits the request and the first attempt
retrieves markup containing the phrase "no records found"
(case-insensitively), `get_dob_status` returns at once with every count and
flag at its default — zero open violations, no stop-work order, no vacate
order, no BIN — and with `error` set to the non-null string
"No property records found". -/
theorem get_dob_status_no_records (extractFn : String → DOBStatus) (env : ScrapeEnv)
    (b : CircuitBreaker) (retry_count : Nat) (html : String)
    (hb : b.state = "CLOSED")
    (h0 : env.attempts 0 = .content html)
    (hnr : strContainsSub (pyLower html) "no records found" = true) :
    resultStatus (get_dob_status extractFn env (Except.ok ()) b retry_count)
      = some { open_violations := 0, stop_work_order := false, vacate_order := false,
               bin_number := none, scraped_at := env.time,
               error := some "No property records found" } := by
  simp [get_dob_status, is_available, hb, scrapeLoop, scrapeStep, h0, hnr,
    resultStatus, okResult, noRecordsStatus]

/-- Witness for `get_dob_status_no_records`: the concrete no-records
environment against a fresh breaker. -/
theorem get_dob_status_no_records_witness :
    ((initBreaker 5 300).state = "CLOSED" ∧
      envNoRecords.attempts 0 = AttemptOutcome.content "<html>No records found</html>" ∧
      strContainsSub (pyLower "<html>No records found</html>") "no records found" = true) ∧
    resultStatus (get_dob_status extractNone envNoRecords (Except.ok ())
        (initBreaker 5 300) 2)
      = some { open_violations := 0, stop_work_order := false, vacate_order := false,
               bin_number := none, scraped_at := 1000,
               error := some "No property records found" } :=
  ⟨⟨rfl, rfl, by decide⟩,
    get_dob_status_no_records extractNone envNoRecords (initBreaker 5 300) 2
      "<html>No records found</html>" rfl rfl (by decide)⟩

/-- C4 counterexample: on markup containing "No records found" the caller
receives `error = "No property records found"` — a non-null error — where
the claim promises a null error field. -/
theorem get_dob_status_no_records_error_not_null :
    (resultStatus (get_dob_status extractNone envNoRecords (Except.ok ())
        (initBreaker 5 300) 2)).map DOBStatus.error
      = some (some "No property records found") := by decide

/-- C6: with two total attempts (`dob_retry_count = 1`, the spec's
`maxAttempts = 2`) and both attempts raising a navigation timeout,
`get_dob_status` returns a status with a non-null error, reports exactly one
failure to the breaker for the whole logical request — not one per
attempt — and never reports a success. -/
theorem get_dob_status_two_timeouts (extractFn : String → DOBStatus)
    (env : ScrapeEnv) (b : CircuitBreaker) (m0 m1 : String)
    (hb : b.state = "CLOSED")
    (h0 : env.attempts 0 = .timeout m0) (h1 : env.attempts 1 = .timeout m1) :
    (okResult (get_dob_status extractFn env (Except.ok ()) b 1)).map
        (fun p => (p.1.error.isSome, p.2.failures_recorded, p.2.successes_recorded))
      = some (true, 1, 0) := by
  simp [get_dob_status, is_available, hb, scrapeLoop, scrapeStep, h0, h1, okResult,
    scrapeFailedStatus, initLoopState]

/-- Witness for `get_dob_status_two_timeouts`: the all-timeouts environment
against a fresh breaker. -/
theorem get_dob_status_two_timeouts_witness :
    ((initBreaker 5 300).state = "CLOSED" ∧
      envTimeouts.attempts 0 = AttemptOutcome.timeout "t" ∧
      envTimeouts.attempts 1 = AttemptOutcome.timeout "t") ∧
    (okResult (get_dob_status extractNone envTimeouts (Except.ok ())
        (initBreaker 5 300) 1)).map
        (fun p => (p.1.error.isSome, p.2.failures_recorded, p.2.successes_recorded))
      = some (true, 1, 0) :=
  ⟨⟨rfl, rfl, rfl⟩,
    get_dob_status_two_timeouts extractNone envTimeouts (initBreaker 5 300) "t" "t"
      rfl rfl rfl⟩

/-! ### Identity rotation within one retry loop (C7) -/

theorem USER_AGENTS_nodup : USER_AGENTS.Nodup := by decide

theorem randomChoice_mem (l : List String) (k : Nat) (h : l ≠ []) : randomChoice l k ∈ l := by
  have hlen : k % l.length < l.length := Nat.mod_lt _ (List.length_pos.mpr h)
  rw [randomChoice, List.getD_eq_getD_get?, List.get?_eq_get hlen]
  exact List.get_mem l _ hlen

theorem chosenAgent_mem_pool (used : List String) (k : Nat) :
    chosenAgent used k ∈ USER_AGENTS := by
  rw [chosenAgent, availableAgents]
  split
  · exact randomChoice_mem _ _ (by decide)
  · rename_i h
    have hne : (USER_AGENTS.filter fun ua => !used.contains ua) ≠ [] := by
      simpa using h
    exact List.mem_of_mem_filter (randomChoice_mem _ k hne)

theorem chosenAgent_fresh (used : List String) (k : Nat)
    (h : (USER_AGENTS.filter fun ua => !used.contains ua) ≠ []) :
    chosenAgent used k ∉ used := by
  rw [chosenAgent, availableAgents]
  rw [if_neg (by simpa using h)]
  have hmem := randomChoice_mem _ k h
  have hp := (List.mem_filter.mp hmem).2
  simpa using hp

theorem pool_subset_used_of_filter_nil (used : List String)
    (h : (USER_AGENTS.filter fun ua => !used.contains ua) = []) :
    ∀ a ∈ USER_AGENTS, a ∈ used := by
  intro a ha
  have := List.filter_eq_nil_iff.mp h a ha
  simpa using this

theorem used_length_eq_pool (used : List String)
    (hnd : used.Nodup) (hsub : ∀ a ∈ used, a ∈ USER_AGENTS)
    (hall : ∀ a ∈ USER_AGENTS, a ∈ used) :
    used.length = USER_AGENTS.length := by
  have h1 : List.Subperm used USER_AGENTS := hnd.subperm hsub
  have h2 : List.Subperm USER_AGENTS used := USER_AGENTS_nodup.subperm hall
  exact Nat.le_antisymm h1.length_le h2.length_le

/-- The rotation invariant on the loop state: the used set is duplicate-free
and drawn from the pool, and either the trace so far is exactly the used set
(no identity repeated yet) or the pool has been exhausted and the first
`USER_AGENTS.length` trace entries are the used set. -/
def AgentInv (used trace : List String) : Prop :=
  used.Nodup ∧ (∀ a ∈ used, a ∈ USER_AGENTS) ∧
    (used = trace ∨
      (used.length = USER_AGENTS.length ∧ trace.take USER_AGENTS.length = used))

theorem agentInv_step (used trace : List String) (k : Nat) (h : AgentInv used trace) :
    AgentInv (setAdd used (chosenAgent used k)) (trace ++ [chosenAgent used k]) := by
  obtain ⟨hnd, hsub, hcase⟩ := h
  by_cases hf : (USER_AGENTS.filter fun x => !used.contains x) = []
  · have hall := pool_subset_used_of_filter_nil used hf
    have hin : chosenAgent used k ∈ used := hall _ (chosenAgent_mem_pool used k)
    have hset : setAdd used (chosenAgent used k) = used := by rw [setAdd, if_pos hin]
    rw [hset]
    have hlen : used.length = USER_AGENTS.length := used_length_eq_pool used hnd hsub hall
    refine ⟨hnd, hsub, Or.inr ⟨hlen, ?_⟩⟩
    rcases hcase with rfl | ⟨hl2, htake⟩
    · rw [← hlen, List.take_left]
    · have htl : USER_AGENTS.length ≤ trace.length := by
        have hlt := congrArg List.length htake
        rw [List.length_take] at hlt
        omega
      rw [List.take_append_of_le_length htl, htake]
  · have hnin : chosenAgent used k ∉ used := chosenAgent_fresh used k hf
    have hset : setAdd used (chosenAgent used k) = used ++ [chosenAgent used k] := by
      rw [setAdd, if_neg hnin]
    have hpool := chosenAgent_mem_pool used k
    rw [hset]
    refine ⟨by simp [List.nodup_append, hnd, hnin], ?_, ?_⟩
    · intro a ha
      rcases List.mem_append.mp ha with ha | ha
      · exact hsub a ha
      · rw [List.mem_singleton] at ha
        rw [ha]
        exact hpool
    · rcases hcase with rfl | ⟨hl2, htake⟩
      · exact Or.inl rfl
      · exfalso
        apply hf
        rw [List.filter_eq_nil_iff]
        intro a ha
        have hperm : List.Perm used USER_AGENTS :=
          (hnd.subperm hsub).perm_of_length_le (le_of_eq hl2.symm)
        have hin : a ∈ used := hperm.mem_iff.mpr ha
        simp [hin]

theorem scrapeStep_used_trace (extractFn : String → DOBStatus) (env : ScrapeEnv)
    (i : Nat) (s : LoopState) :
    (scrapeStep extractFn env i s).2.used_agents
        = setAdd s.used_agents (chosenAgent s.used_agents (env.picks i)) ∧
    (scrapeStep extractFn env i s).2.agent_trace
        = s.agent_trace ++ [chosenAgent s.used_agents (env.picks i)] := by
  rcases h : env.attempts i with m | m | html
  · simp [scrapeStep, h]
  · simp [scrapeStep, h]
  · simp only [scrapeStep, h]
    split
    · exact ⟨rfl, rfl⟩
    · split
      · exact ⟨rfl, rfl⟩
      · exact ⟨rfl, rfl⟩

theorem scrapeLoop_inv (extractFn : String → DOBStatus) (env : ScrapeEnv)
    (r i : Nat) (s : LoopState) (h : AgentInv s.used_agents s.agent_trace) :
    AgentInv (scrapeLoop extractFn env r i s).2.used_agents
      (scrapeLoop extractFn env r i s).2.agent_trace := by
  induction r generalizing i s with
  | zero => exact h
  | succ r ih =>
    have hu := scrapeStep_used_trace extractFn env i s
    rcases hstep : scrapeStep extractFn env i s with ⟨out, s2⟩
    rw [hstep] at hu
    have h2 : AgentInv s2.used_agents s2.agent_trace := by
      rw [hu.1, hu.2]
      exact agentInv_step _ _ _ h
    rcases out with _ | st
    · have hred : scrapeLoop extractFn env (r + 1) i s = scrapeLoop extractFn env r (i + 1) s2 := by
        rw [scrapeLoop, hstep]
      rw [hred]
      exact ih (i + 1) s2 h2
    · have hred : scrapeLoop extractFn env (r + 1) i s = (st, s2) := by
        rw [scrapeLoop, hstep]
      rw [hred]
      exact h2

/-- C7: within one run of the retry loop of `get_dob_status` (one logical
request), the first `USER_AGENTS.length` identities chosen are pairwise
distinct — no user agent is reused until every identity of the pool has
been used within that request, whatever the attempt outcomes and however
the random indices fall. -/
theorem scrapeLoop_agents_distinct (extractFn : String → DOBStatus) (env : ScrapeEnv)
    (r : Nat) (b : CircuitBreaker) :
    ((scrapeLoop extractFn env r 0 (initLoopState b)).2.agent_trace.take
      USER_AGENTS.length).Nodup := by
  have h := scrapeLoop_inv extractFn env r 0 (initLoopState b)
    ⟨List.nodup_nil, by simp [initLoopState], Or.inl rfl⟩
  obtain ⟨hnd, _, hcase | hcase⟩ := h
  · rw [← hcase]
    exact hnd.sublist (List.take_sublist _ _)
  · rw [hcase.2]
    exact hnd

/-! ### Session acquisition and release
(browser_manager.py, BrowserManager.get_page) -/

/-- Outcome of one awaited call inside `get_page`: it returns, or it raises
with a message. -/
inductive StepOutcome where
  | ok
  | err (msg : String)

/-- Outcomes of the individual awaited calls of one `get_page` use: the
lazy `initialize` when the browser is not ready, `new_context`,
`add_init_script`, `new_page`, the body run while the page is yielded
(navigation and extraction — a timeout or any other exception), and the two
close calls of the `finally` block. -/
structure PageEnv where
  initResult : StepOutcome
  newContextResult : StepOutcome
  initScriptResult : StepOutcome
  newPageResult : StepOutcome
  bodyResult : StepOutcome
  pageCloseResult : StepOutcome
  contextCloseResult : StepOutcome

/-- Resource events of one `get_page` use: a browsing context or page is
created or released. -/
inductive ResEvent where
  | openContext
  | openPage
  | closePage
  | closeContext

/-- The `finally` block of `get_page`: close the page if one was created,
then close the context if one was created.  Each close is wrapped in its
own `try/except` that only logs, so a close failure is swallowed; the close
attempt releases the resource either way. -/
def finallyBlock (pageOpened contextOpened : Bool) : List ResEvent :=
  (if pageOpened then [ResEvent.closePage] else []) ++
    (if contextOpened then [ResEvent.closeContext] else [])

/-- One use of `BrowserManager.get_page`: the resource events it performs,
in order, and the outcome its caller observes.  `context` and `page` start
as `None`; each creation step that raises leaves its variable `None`, the
body runs with both created, and the `finally` block runs on every exit
path.  The close outcomes of `env` play no role in either component because
the code swallows close failures. -/
def get_page_run (env : PageEnv) : List ResEvent × Except String Unit :=
  match env.initResult with
  | .err m => ([], .error m)
  | .ok =>
    match env.newContextResult with
    | .err m => (finallyBlock false false, .error m)
    | .ok =>
      match env.initScriptResult with
      | .err m => ([ResEvent.openContext] ++ finallyBlock false true, .error m)
      | .ok =>
        match env.newPageResult with
        | .err m => ([ResEvent.openContext] ++ finallyBlock false true, .error m)
        | .ok =>
          match env.bodyResult with
          | .err m =>
            ([ResEvent.openContext, ResEvent.openPage] ++ finallyBlock true true, .error m)
          | .ok =>
            ([ResEvent.openContext, ResEvent.openPage] ++ finallyBlock true true, .ok ())

/-- Net number of sessions left open by a sequence of resource events. -/
def sessionBalance (evs : List ResEvent) : Int :=
  evs.foldl
    (fun n e =>
      match e with
      | .openContext => n + 1
      | .openPage => n + 1
      | .closePage => n - 1
      | .closeContext => n - 1)
    0

/-- The first failure of acquisition or use, in program order — what the
design document calls the original error.  Close outcomes do not appear. -/
def firstFetchError (env : PageEnv) : Except String Unit :=
  match env.initResult with
  | .err m => .error m
  | .ok =>
    match env.newContextResult with
    | .err m => .error m
    | .ok =>
      match env.initScriptResult with
      | .err m => .error m
      | .ok =>
        match env.newPageResult with
        | .err m => .error m
        | .ok =>
          match env.bodyResult with
          | .err m => .error m
          | .ok => .ok ()

/-- C9: on every exit path of a `get_page` use — normal return, timeout, or
any other exception while the page is in use, and whatever the close calls
themselves do — every created page and browsing context is released, so the
net session balance of the run is zero and the count of open sessions
returns to its pre-call baseline; and the outcome the caller observes is
exactly the original acquisition/use error: release failures are swallowed
and never mask it. -/
theorem get_page_releases_and_never_masks (env : PageEnv) :
    sessionBalance (get_page_run env).1 = 0 ∧
    (get_page_run env).2 = firstFetchError env := by
  obtain ⟨i, c, s, p, b, pc, cc⟩ := env
  cases i <;> cases c <;> cases s <;> cases p <;> cases b <;>
    simp [get_page_run, firstFetchError, sessionBalance, finallyBlock]

/-- C8 counterexample: for the street `"Main  Street"` (two internal spaces)
the code produces the query component `street=MAIN++STREET` — each space is
replaced by its own plus sign and runs of internal whitespace are not
collapsed — so the collapsed component `street=MAIN+STREET` promised by the
claim does not occur in the produced URL. -/
theorem build_search_url_not_collapsed :
    specCollapsedStreet "Main  Street" = "MAIN+STREET" ∧
    replaceSpacePlus (pyUpper (pyStrip "Main  Street")) = "MAIN++STREET" ∧
    strContainsSub (build_search_url "http://x" "123" "Main  Street" Borough.manhattan)
      ("street=" ++ specCollapsedStreet "Main  Street") = false ∧
    strContainsSub (build_search_url "http://x" "123" "Main  Street" Borough.manhattan)
      "street=MAIN++STREET" = true :=
  ⟨by decide, by decide, by decide, by decide⟩

end NYCSignals
